import Mathlib

/-!
Verification development for the data-export workflow of the MDM MCP server
(`src/data_ms/data_exports/{tools,service,tool_models}.py` and
`src/data_ms/adapters/data_ms_adapter.py`).

Python dictionaries are embedded as insertion-ordered association lists over
`DVal` values; byte strings are lists of naturals below 256; fallible calls
return `Except`-style sums.  Each definition mirrors one Python function and
is annotated with the file and symbol it embeds.
-/

namespace MdmMcp

/-- JSON-ish values held in the dictionaries the services pass around:
strings, numbers, booleans, raw byte payloads, arrays, nested objects,
and Python's `None`. -/
inductive DVal where
  | s (v : String)
  | n (v : Nat)
  | b (v : Bool)
  | bytes (v : List Nat)
  | arr (v : List DVal)
  | obj (v : List (String × DVal))
  | none

/-- A Python `dict` with string keys, as an insertion-ordered association list. -/
abbrev PyDict := List (String × DVal)

/-- Lookup `d[k]` / `d.get(k)`. -/
def dictGet (d : PyDict) (k : String) : Option DVal :=
  (d.find? (fun p => p.fst == k)).map Prod.snd

/-- The membership test `k in d`. -/
def dictContains (d : PyDict) (k : String) : Bool :=
  d.any (fun p => p.fst == k)

/-- Assignment `d[k] = v`: replaces in place when the key exists, otherwise
appends at the end (Python dicts preserve insertion order). -/
def dictSet (d : PyDict) (k : String) (v : DVal) : PyDict :=
  if dictContains d k then
    d.map (fun p => if p.fst == k then (k, v) else p)
  else
    d ++ [(k, v)]

/-- Deletion `del d[k]`. -/
def dictDel (d : PyDict) (k : String) : PyDict :=
  d.filter (fun p => p.fst != k)

/-- The list of keys of a dictionary, in order. -/
def dictKeys (d : PyDict) : List String :=
  d.map Prod.fst

/-! ### Query expression trees (spec section 3, SearchCriteria) -/

/-- A node of the recursive filter structure sent as `search_criteria.query`:
a leaf carries an optional `property`, optional `condition` and optional
`value` key, a compound carries an `operation` and a list of children. -/
inductive QueryExpr where
  | leaf (property : Option String) (condition : Option String) (value : Option String)
  | compound (operation : String) (children : List QueryExpr)

/-- Conditions that are value-presence checks and therefore need no `value`. -/
def isPresenceCheck (c : String) : Bool :=
  c == "has_value" || c == "not_has_value"

/-- The SearchCriteria invariant of the spec: a leaf must have `condition`,
a leaf whose `condition` is not a presence-check must have `value`, and a
compound must have at least one child (recursively). -/
def invariantHolds : QueryExpr → Bool
  | .leaf _ c v =>
      c.isSome && (isPresenceCheck (c.getD "") || v.isSome)
  | .compound _ [] => false
  | .compound _ [e] => invariantHolds e
  | .compound op (e :: e' :: es) =>
      invariantHolds e && invariantHolds (.compound op (e' :: es))
termination_by e => sizeOf e
decreasing_by
  all_goals simp_wf
  all_goals omega

mutual

/-- Serialisation of a query expression into the JSON object the service
embeds into the request body: a leaf emits only the keys it actually
carries (the hardcoded wildcard leaf has just `"value"`), a compound emits
`operation` and `expressions`. -/
def exprToDVal : QueryExpr → DVal
  | .leaf p c v =>
      .obj ((match p with | some pv => [("property", DVal.s pv)] | Option.none => [])
            ++ (match c with | some cv => [("condition", DVal.s cv)] | Option.none => [])
            ++ (match v with | some vv => [("value", DVal.s vv)] | Option.none => []))
  | .compound op children =>
      .obj [("operation", .s op), ("expressions", .arr (exprListToDVal children))]

/-- Serialisation of a list of child expressions. -/
def exprListToDVal : List QueryExpr → List DVal
  | [] => []
  | e :: es => exprToDVal e :: exprListToDVal es

end

/-! ### Export Request Builder
(`service.py`, `DataExportService._build_hardcoded_payload`, lines 36-105) -/

/-- The wildcard query the service hardcodes into every export request:
`{"operation": "and", "expressions": [{"value": "*"}]}`, viewed as an
expression tree.  The single child is a leaf carrying only a `value` key. -/
def defaultQueryExpr : QueryExpr :=
  .compound "and" [.leaf Option.none Option.none (some "*")]

/-- Embeds `DataExportService._build_hardcoded_payload`: chooses
`search_type` / filter type / filter value from `export_type` (anything
other than `"record"` falls to the entity branch) and assembles the body
dictionary `{export_type, format, search_criteria}`. -/
def buildHardcodedPayload (export_type file_format : String) : PyDict :=
  let search_type := if export_type == "record" then "record" else "entity"
  let filter_type := if export_type == "record" then "record" else "entity"
  let filter_value := if export_type == "record" then "creditrecord" else "creditentity"
  [ ("export_type", .s export_type),
    ("format", .s file_format),
    ("search_criteria", .obj
      [ ("search_type", .s search_type),
        ("query", exprToDVal defaultQueryExpr),
        ("filters", .arr
          [ .obj [ ("type", .s filter_type),
                   ("values", .arr [ .s filter_value ]) ] ]) ]) ]

/-- ASCII whitespace removed by Python's `str.strip()`. -/
def isPyWhitespace (c : Char) : Bool :=
  c == ' ' || c == '\t' || c == '\n' || c == '\r' || c == '\x0b' || c == '\x0c'

/-- Python's `str.strip()` with no argument: leading and trailing
whitespace removed. -/
def pyStrip (sv : String) : String :=
  String.mk (((sv.data.dropWhile isPyWhitespace).reverse.dropWhile isPyWhitespace).reverse)

/-- Per-character lowering as Python's `str.lower()` acts on the ASCII
range (the only range the export-kind comparison is sensitive to). -/
def pyLowerChar (c : Char) : Char :=
  if 'A' ≤ c ∧ c ≤ 'Z' then Char.ofNat (c.toNat + 32) else c

/-- Python's `str.lower()` on the ASCII range. -/
def pyLower (sv : String) : String :=
  String.mk (sv.data.map pyLowerChar)

/-- Embeds the `export_type` normalisation of
`DataExportService.create_export` (`service.py` lines 138-148): `None` or
blank becomes `"entity"`; otherwise the value is trimmed and lower-cased;
anything not in `{"entity", "record"}` is then replaced by `"entity"`. -/
def normalizeExportType (export_type : Option String) : String :=
  let e1 :=
    match export_type with
    | Option.none => "entity"
    | some sv => if pyStrip sv == "" then "entity" else pyLower (pyStrip sv)
  if e1 == "entity" || e1 == "record" then e1 else "entity"

/-- The request body `create_export` hands to the adapter: the hardcoded
payload built from the normalised export type and the file format
(`service.py` lines 156-159). -/
def createExportBody (export_type : Option String) (file_format : String) : PyDict :=
  buildHardcodedPayload (normalizeExportType export_type) file_format

/-! ### Transport Client query parameters
(`data_ms_adapter.py`, `DataMSAdapter.create_data_export`, lines 197-218) -/

/-- Embeds the query-parameter construction of
`DataMSAdapter.create_data_export`: `params = {"crn": crn}` and then
`params["compression_type"] = compression_type` exactly when the argument
is truthy (a Python string is truthy iff non-empty; `None` is falsy). -/
def mkCreateParams (crn : String) (compression_type : Option String) : PyDict :=
  let params : PyDict := [("crn", .s crn)]
  match compression_type with
  | some cv => if cv == "" then params else dictSet params "compression_type" (.s cv)
  | Option.none => params

/-! ### Remote create-export call and its error path
(`data_ms_adapter.py` lines 210-243 and `service.py` lines 173-196) -/

/-- A `requests` response as the adapter consumes it: HTTP status code,
reason phrase, body text and parsed JSON body.  `requests` defines `ok`
as `status_code < 400`. -/
structure HttpResponse where
  status_code : Nat
  reason : String
  text : String
  jsonBody : PyDict

/-- The `ok` flag of a `requests` response. -/
def HttpResponse.ok (r : HttpResponse) : Bool :=
  r.status_code < 400

/-- The `requests.exceptions.HTTPError` raised by
`DataMSAdapter.create_data_export` on a non-2xx response: the message
built from status, reason, url and body, the response object itself, and
the `response_text` attribute attached before raising. -/
structure HttpErrorExc where
  msg : String
  response : HttpResponse
  response_text : Option String

/-- Embeds `DataMSAdapter.create_data_export` from the point where the
transport call has produced a response (lines 220-243): the body text is
read into `response_text` first; if the response is not ok, an
`HTTPError` carrying that text (and the response) is raised; otherwise
the parsed JSON body is returned. -/
def adapterCreateDataExport (url : String) (r : HttpResponse) : Except HttpErrorExc PyDict :=
  let response_text := r.text
  if r.ok then
    .ok r.jsonBody
  else
    let error_msg :=
      toString r.status_code ++ " " ++ r.reason ++ " for url: " ++ url
        ++ (if response_text == "" then "" else " | Response: " ++ response_text)
    .error { msg := error_msg, response := r, response_text := some response_text }

/-- A structured error result `{error, status_code, message, details}` as the
service returns it across the tool boundary
(`tool_models.py`, `DataExportErrorResponse`). -/
structure ErrorResult where
  error : String
  status_code : Nat
  message : String
  details : PyDict

/-- Embeds the `except requests.exceptions.RequestException` branch of
`DataExportService.create_export` (`service.py` lines 173-196):
`error_details` starts with `original_error`, gains `mdm_response` when the
exception carries a truthy `response_text`, then `status_code` and
`response_body` from the attached response object, and the final result's
`status_code` is `error_details.get("status_code", 500)`. -/
def serviceCreateOnRequestError (e : HttpErrorExc) : ErrorResult :=
  let d0 : PyDict := [("original_error", .s e.msg)]
  let d1 :=
    match e.response_text with
    | some tv => if tv == "" then d0 else dictSet d0 "mdm_response" (.s tv)
    | Option.none => d0
  let d2 := dictSet d1 "status_code" (.n e.response.status_code)
  let d3 := dictSet d2 "response_body" (.s e.response.text)
  { error := "APIError",
    status_code :=
      match dictGet d3 "status_code" with
      | some (.n k) => k
      | _ => 500,
    message := "Failed to create export job: " ++ e.msg,
    details := d3 }

/-- The create-export error path end to end: the adapter consumes the
remote response; on a non-ok response the raised exception is caught by
the service and turned into a structured `APIError` result. -/
def createExportErrorPath (url : String) (r : HttpResponse) : Except ErrorResult PyDict :=
  match adapterCreateDataExport url r with
  | .ok body => .ok body
  | .error e => .error (serviceCreateOnRequestError e)

/-! ### Base64 encoding
Model of Python's `base64.b64encode(...).decode("utf-8")` as used by
`DataExportService.download_export` (`service.py` line 260).  Bytes are
naturals below 256; the encoded form is a list of characters over the
standard alphabet with `'='` padding. -/

/-- The standard base64 alphabet. -/
def b64Alphabet : List Char :=
  "ABCDEFGHIJKLMNOPQRSTUVWXYZabcdefghijklmnopqrstuvwxyz0123456789+/".toList

/-- The character encoding a sextet value. -/
def toB64Char (i : Nat) : Char :=
  b64Alphabet.getD i '='

/-- The sextet value of an alphabet character (its index in the alphabet). -/
def fromB64 (c : Char) : Nat :=
  b64Alphabet.indexOf c

/-- Base64 encoding of a byte list: each 3-byte group becomes 4 alphabet
characters; a trailing 2-byte group becomes 3 characters plus one `'='`;
a trailing single byte becomes 2 characters plus two `'='`. -/
def b64Encode : List Nat → List Char
  | a :: b :: c :: rest =>
      let n := a * 65536 + b * 256 + c
      toB64Char (n / 262144) :: toB64Char (n / 4096 % 64) ::
        toB64Char (n / 64 % 64) :: toB64Char (n % 64) :: b64Encode rest
  | [a, b] =>
      [toB64Char (a / 4), toB64Char (a % 4 * 16 + b / 16), toB64Char (b % 16 * 4), '=']
  | [a] =>
      [toB64Char (a / 4), toB64Char (a % 4 * 16), '=', '=']
  | [] => []

/-- Base64 decoding: each 4-character group yields 3 bytes, except that a
group ending in one `'='` yields 2 bytes and a group ending in two `'='`
yields 1 byte. -/
def b64Decode : List Char → List Nat
  | w :: x :: y :: z :: rest =>
      if z == '=' then
        if y == '=' then
          [fromB64 w * 4 + fromB64 x / 16]
        else
          [fromB64 w * 4 + fromB64 x / 16, fromB64 x % 16 * 16 + fromB64 y / 4]
      else
        let n := fromB64 w * 262144 + fromB64 x * 4096 + fromB64 y * 64 + fromB64 z
        n / 65536 :: n / 256 % 256 :: n % 256 :: b64Decode rest
  | _ => []

/-- Alphabet characters decode back to their sextet value. -/
theorem fromB64_toB64Char : ∀ i : Nat, i < 64 → fromB64 (toB64Char i) = i := by
  decide

/-- No sextet value is encoded as the padding character. -/
theorem toB64Char_ne_pad : ∀ i : Nat, i < 64 → (toB64Char i == '=') = false := by
  decide

/-- Decoding inverts encoding on genuine byte lists. -/
theorem b64_decode_encode (bs : List Nat) (h : ∀ x ∈ bs, x < 256) :
    b64Decode (b64Encode bs) = bs := by
  induction bs using b64Encode.induct with
  | case1 a b c rest ih =>
    have ha : a < 256 := h a (by simp)
    have hb : b < 256 := h b (by simp)
    have hc : c < 256 := h c (by simp)
    have hrest : ∀ x ∈ rest, x < 256 := fun x hx => h x (by simp [hx])
    simp only [b64Encode, b64Decode]
    rw [toB64Char_ne_pad ((a * 65536 + b * 256 + c) % 64) (by omega)]
    simp only [Bool.false_eq_true, if_false]
    rw [fromB64_toB64Char ((a * 65536 + b * 256 + c) / 262144) (by omega),
        fromB64_toB64Char ((a * 65536 + b * 256 + c) / 4096 % 64) (by omega),
        fromB64_toB64Char ((a * 65536 + b * 256 + c) / 64 % 64) (by omega),
        fromB64_toB64Char ((a * 65536 + b * 256 + c) % 64) (by omega)]
    rw [ih hrest]
    simp only [List.cons.injEq, and_true]
    refine ⟨?_, ?_, ?_⟩ <;> omega
  | case2 a b =>
    have ha : a < 256 := h a (by simp)
    have hb : b < 256 := h b (by simp)
    simp only [b64Encode, b64Decode]
    rw [toB64Char_ne_pad (b % 16 * 4) (by omega)]
    simp only [beq_self_eq_true, if_true, Bool.false_eq_true, if_false]
    rw [fromB64_toB64Char (a / 4) (by omega),
        fromB64_toB64Char (a % 4 * 16 + b / 16) (by omega),
        fromB64_toB64Char (b % 16 * 4) (by omega)]
    simp only [List.cons.injEq, and_true]
    constructor <;> omega
  | case3 a =>
    have ha : a < 256 := h a (by simp)
    simp only [b64Encode, b64Decode]
    simp only [beq_self_eq_true, if_true]
    rw [fromB64_toB64Char (a / 4) (by omega),
        fromB64_toB64Char (a % 4 * 16) (by omega)]
    simp only [List.cons.injEq, and_true]
    omega
  | case4 => rfl

/-! ### Export Download Materializer
(`data_ms_adapter.py`, `DataMSAdapter.download_data_export`, lines 284-379,
and `service.py`, `DataExportService.download_export`, lines 232-274) -/

/-- The 8192-byte chunks `response.iter_content(chunk_size=8192)` yields
for a fully received payload. -/
def iterChunks (l : List Nat) : List (List Nat) :=
  if l.isEmpty then [] else l.take 8192 :: iterChunks (l.drop 8192)
termination_by l.length
decreasing_by
  simp only [List.length_drop]
  cases l with
  | nil => simp_all
  | cons a as => simp; omega

/-- The byte count accumulated by the disk-mode write loop: empty chunks
are skipped (`if chunk:`), each written chunk adds its length. -/
def chunkedSize (payload : List Nat) : Nat :=
  (iterChunks payload).foldl (fun acc ch => if ch.isEmpty then acc else acc + ch.length) 0

/-- Embeds `DataMSAdapter.download_data_export` after the streaming GET has
succeeded.  `dispositionFilename` is the result of the regex match on the
`content-disposition` header; the fallback name is `{export_id}.csv`.
With a `save_to_path` the payload is streamed to disk in chunks and the
result carries `file_path`; without one the raw bytes are returned under
`file_content`. -/
def adapterDownloadDataExport (export_id : String) (payload : List Nat)
    (dispositionFilename : Option String) (content_type : String)
    (save_to_path : Option String) : PyDict :=
  let file_name := dispositionFilename.getD (export_id ++ ".csv")
  match save_to_path with
  | some path =>
      let full_path := path ++ "/" ++ file_name
      [ ("export_id", .s export_id),
        ("file_name", .s file_name),
        ("content_type", .s content_type),
        ("file_size", .n (chunkedSize payload)),
        ("file_path", .s full_path),
        ("status", .s "downloaded") ]
  | Option.none =>
      [ ("export_id", .s export_id),
        ("file_name", .s file_name),
        ("content_type", .s content_type),
        ("file_size", .n payload.length),
        ("file_content", .bytes payload),
        ("status", .s "downloaded") ]

/-- Embeds the post-processing of `DataExportService.download_export`
(`service.py` lines 257-263): when `include_base64` is set and the adapter
result has a raw `file_content`, a `file_content_base64` field is added
(only for byte content) and the raw field is deleted; otherwise a raw
`file_content` is deleted unconditionally. -/
def serviceDownloadPost (include_base64 : Bool) (result : PyDict) : PyDict :=
  if include_base64 && dictContains result "file_content" then
    let result1 :=
      match dictGet result "file_content" with
      | some (.bytes bs) => dictSet result "file_content_base64" (.s (String.mk (b64Encode bs)))
      | _ => result
    dictDel result1 "file_content"
  else if dictContains result "file_content" then
    dictDel result "file_content"
  else
    result

/-- The result a successful download returns across the tool boundary:
adapter download followed by the service's base64 post-processing. -/
def downloadExportResult (export_id : String) (payload : List Nat)
    (dispositionFilename : Option String) (content_type : String)
    (save_to_path : Option String) (include_base64 : Bool) : PyDict :=
  serviceDownloadPost include_base64
    (adapterDownloadDataExport export_id payload dispositionFilename content_type save_to_path)

/-! ### Job Status Interpreter
(`tools.py`, `get_data_export`, lines 86-142) -/

/-- A well-formed job descriptor as returned by a successful poll
(`data_ms_adapter.py` docstring, lines 260-271, and the required fields of
`GetDataExportResponse` in `tool_models.py`).  `status` is optional to
model `result.get("status", "unknown")`. -/
structure JobRecord where
  job_id : String
  job_type : String
  status : Option String
  export_type : String
  file_name : String
  file_expired : Bool
  start_time : Option String
  end_time : Option String
  process_ids : Option (List String)

/-- The status string `get_data_export` reads from the job record:
`result.get("status", "unknown")`. -/
def statusOf (r : JobRecord) : String :=
  r.status.getD "unknown"

/-- The discriminated verdict `get_data_export` returns: a full job
descriptor on success, a structured error otherwise. -/
inductive GetExportToolResult where
  | success (job : JobRecord)
  | error (e : ErrorResult)

/-- Embeds the status classification of `get_data_export` (`tools.py`
lines 115-142): `succeeded` returns the record; `failed` / `canceled`
return an `ExportFailed` error with status code 400; every other status
returns an `ExportNotReady` error with status code 202. -/
def classifyGetDataExport (export_id : String) (r : JobRecord) : GetExportToolResult :=
  let status := statusOf r
  if status == "succeeded" then
    .success r
  else if status == "failed" || status == "canceled" then
    .error { error := "ExportFailed", status_code := 400,
             message := "Export job " ++ export_id ++ " " ++ status ++ ".",
             details := [ ("export_id", .s export_id), ("status", .s status),
                          ("job_id", .s r.job_id) ] }
  else
    .error { error := "ExportNotReady", status_code := 202,
             message := "Export job " ++ export_id ++ " is not ready. Status: "
               ++ status ++ ". Please wait and retry.",
             details := [ ("export_id", .s export_id), ("status", .s status),
                          ("job_id", .s r.job_id) ] }

/-! ### The create-export tool boundary
(`tools.py`, `create_data_export`, lines 42-83) -/

/-- The keyword parameters accepted by `DataExportService.create_export`
(`service.py` lines 107-114; `self` is bound by the method call). -/
def createExportParamNames : List String :=
  ["ctx", "export_type", "file_format", "compression_type", "crn"]

/-- The keywords the tool `create_data_export` passes to
`service.create_export` (`tools.py` lines 72-78). -/
def createToolCallKeywords : List String :=
  ["ctx", "entity_type", "file_format", "compression_type", "crn"]

/-- The tool's request model (`tool_models.py`, `CreateDataExportRequest`):
all fields have defaults, so every instance is a valid request. -/
structure CreateDataExportRequest where
  entity_type : String := "creditentity"
  file_format : String := "csv"
  compression_type : String := "zip"
  crn : Option String := Option.none

/-- Outcome of a Python call: either the callee's return value, or a
`TypeError` raised at argument binding time. -/
inductive PyCallOutcome (α : Type) where
  | returned (a : α)
  | raisedTypeError

/-- Python keyword-argument binding: a call supplying a keyword that is
not among the callee's parameter names (for a callee without `**kwargs`,
as `create_export` is) raises `TypeError` before the callee body runs;
otherwise the callee runs and its value is returned. -/
def callByKeyword (paramNames keywords : List String) (callee : α) : PyCallOutcome α :=
  if keywords.all (fun k => paramNames.contains k) then .returned callee
  else .raisedTypeError

/-- The tool's response union (`tool_models.py`,
`CreateDataExportResponse`): `ExportJobResponse(**result)` or
`DataExportErrorResponse(**result)`. -/
inductive CreateToolResponse where
  | exportJob (body : PyDict)
  | exportError (body : PyDict)

/-- Embeds the tool `create_data_export` (`tools.py` lines 42-83): it
invokes `service.create_export` with the keywords of
`createToolCallKeywords` — with no surrounding try/except, so a binding
`TypeError` propagates — and shapes a returned dict on the `"error"`
key.  `serviceResult` stands for whatever dict the service call would
return if it were entered. -/
def create_data_export (req : CreateDataExportRequest) (serviceResult : PyDict) :
    PyCallOutcome CreateToolResponse :=
  match callByKeyword createExportParamNames createToolCallKeywords serviceResult with
  | .raisedTypeError => .raisedTypeError
  | .returned result =>
      .returned (if dictContains result "error" then .exportError result else .exportJob result)

/-- A sample well-formed job record used to instantiate classification
theorems at concrete inputs. -/
def sampleJob (st : Option String) : JobRecord :=
  { job_id := "job-1", job_type := "export", status := st, export_type := "entity",
    file_name := "file.csv", file_expired := false, start_time := Option.none,
    end_time := Option.none, process_ids := Option.none }

/-- A concrete simulated 500 response with a known body string, used to
instantiate the error-path theorem. -/
def resp500boom : HttpResponse :=
  { status_code := 500, reason := "Internal Server Error", text := "boom", jsonBody := [] }

/-! ## Theorems for the frozen claims -/

/-- C4: for every valid combination of export kind, file format and
compression, the request body has exactly the keys `export_type`,
`format`, `search_criteria` — no compression-related key — while the
compression value travels as the `compression_type` query parameter
(present whenever compression ≠ none, and indeed for every valid
compression value) alongside the `crn` parameter. -/
theorem C4_body_query_split (export_type file_format crn compression : String)
    (hcomp : compression = "zip" ∨ compression = "tar" ∨ compression = "tgz" ∨
      compression = "none") :
    dictKeys (buildHardcodedPayload export_type file_format) =
      ["export_type", "format", "search_criteria"] ∧
    (∀ k ∈ dictKeys (buildHardcodedPayload export_type file_format),
      ¬ k = "compression" ∧ ¬ k = "compression_type") ∧
    ("compression_type", DVal.s compression) ∈ mkCreateParams crn (some compression) ∧
    ("crn", DVal.s crn) ∈ mkCreateParams crn (some compression) := by
  refine ⟨rfl, ?_, ?_, ?_⟩
  · intro k hk
    rw [show dictKeys (buildHardcodedPayload export_type file_format) =
      ["export_type", "format", "search_criteria"] from rfl] at hk
    simp only [List.mem_cons, List.not_mem_nil, or_false] at hk
    rcases hk with h | h | h <;> simp [h]
  · have hne : (compression == "") = false := by
      rcases hcomp with h | h | h | h <;> simp [h]
    simp [mkCreateParams, hne, dictSet, dictContains]
  · have hne : (compression == "") = false := by
      rcases hcomp with h | h | h | h <;> simp [h]
    simp [mkCreateParams, hne, dictSet, dictContains]

/-- Witness for C4 at the concrete valid combination
(entity, csv, zip). -/
theorem C4_body_query_split_witness :
    ("zip" = "zip" ∨ "zip" = "tar" ∨ "zip" = "tgz" ∨ "zip" = "none") ∧
    (dictKeys (buildHardcodedPayload "entity" "csv") =
        ["export_type", "format", "search_criteria"] ∧
      (∀ k ∈ dictKeys (buildHardcodedPayload "entity" "csv"),
        ¬ k = "compression" ∧ ¬ k = "compression_type") ∧
      ("compression_type", DVal.s "zip") ∈ mkCreateParams "crn:v1:test" (some "zip") ∧
      ("crn", DVal.s "crn:v1:test") ∈ mkCreateParams "crn:v1:test" (some "zip")) :=
  ⟨Or.inl rfl, C4_body_query_split "entity" "csv" "crn:v1:test" "zip" (Or.inl rfl)⟩

/-- C5: with default inputs (export kind `entity`, file format `csv`) and
no caller-supplied criteria, the builder emits exactly
`{"export_type": "entity", "format": "csv", "search_criteria": {...}}`
whose query is a single wildcard-value expression under an `"and"`
operation together with a filter selecting the requested kind
(`creditentity` for entity exports, `creditrecord` for record exports). -/
theorem C5_default_body :
    buildHardcodedPayload "entity" "csv" =
      [ ("export_type", .s "entity"),
        ("format", .s "csv"),
        ("search_criteria", .obj
          [ ("search_type", .s "entity"),
            ("query", .obj
              [ ("operation", .s "and"),
                ("expressions", .arr [ .obj [("value", .s "*")] ]) ]),
            ("filters", .arr
              [ .obj [ ("type", .s "entity"),
                       ("values", .arr [ .s "creditentity" ]) ] ]) ]) ] ∧
    buildHardcodedPayload "record" "csv" =
      [ ("export_type", .s "record"),
        ("format", .s "csv"),
        ("search_criteria", .obj
          [ ("search_type", .s "record"),
            ("query", .obj
              [ ("operation", .s "and"),
                ("expressions", .arr [ .obj [("value", .s "*")] ]) ]),
            ("filters", .arr
              [ .obj [ ("type", .s "record"),
                       ("values", .arr [ .s "creditrecord" ]) ] ]) ]) ] ∧
    defaultQueryExpr = .compound "and" [.leaf Option.none Option.none (some "*")] := by
  refine ⟨?_, ?_, rfl⟩ <;> rfl

/-- C6 counterexample: the default wildcard criteria the service builds
does NOT satisfy the SearchCriteria invariant — its single leaf
`{"value": "*"}` carries no `condition` key, so the leaf-condition part
of the invariant fails. -/
theorem C6_default_criteria_violates_invariant :
    invariantHolds defaultQueryExpr = false := by
  simp [invariantHolds, defaultQueryExpr, isPresenceCheck]

/-- C6 amended: the default criteria is an `"and"` compound with exactly
one child — so the compound-nonemptiness part of the invariant holds —
and that child is a leaf carrying value `"*"` but no condition, so the
leaf-condition part of the invariant (and with it the full invariant)
fails on the constructed tree. -/
theorem C6_default_criteria_shape :
    defaultQueryExpr =
      QueryExpr.compound "and" [QueryExpr.leaf Option.none Option.none (some "*")] ∧
    invariantHolds (QueryExpr.compound "and" [QueryExpr.leaf Option.none Option.none (some "*")])
      = invariantHolds (QueryExpr.leaf Option.none Option.none (some "*")) ∧
    invariantHolds (QueryExpr.leaf Option.none Option.none (some "*")) = false := by
  refine ⟨rfl, ?_, ?_⟩
  · simp [invariantHolds]
  · simp [invariantHolds, isPresenceCheck]

/-- C7: `export_type` is stringified, trimmed and lower-cased; `None`,
blank and unrecognized values fall back to `"entity"` and the call
proceeds (the body is still built), so the body's `export_type` field is
always exactly `"entity"` or `"record"`. -/
theorem C7_export_type_normalisation (et : Option String) :
    (normalizeExportType et = "entity" ∨ normalizeExportType et = "record") ∧
    (et = Option.none → normalizeExportType et = "entity") ∧
    (∀ sv, et = some sv → pyStrip sv = "" → normalizeExportType et = "entity") ∧
    (∀ sv, et = some sv → ¬ pyStrip sv = "" → ¬ pyLower (pyStrip sv) = "entity" →
      ¬ pyLower (pyStrip sv) = "record" → normalizeExportType et = "entity") ∧
    (∀ sv, et = some sv → ¬ pyStrip sv = "" →
      (pyLower (pyStrip sv) = "entity" ∨ pyLower (pyStrip sv) = "record") →
      normalizeExportType et = pyLower (pyStrip sv)) ∧
    dictGet (createExportBody et "csv") "export_type" =
      some (.s (normalizeExportType et)) := by
  refine ⟨?_, ?_, ?_, ?_, ?_, ?_⟩
  · unfold normalizeExportType
    cases et with
    | none => simp
    | some sv =>
      by_cases h1 : pyStrip sv = "" <;> by_cases h2 : pyLower (pyStrip sv) = "entity" <;>
        by_cases h3 : pyLower (pyStrip sv) = "record" <;> simp [h1, h2, h3]
  · intro h; subst h; rfl
  · intro sv h h1; subst h; simp [normalizeExportType, h1]
  · intro sv h h1 h2 h3; subst h; simp [normalizeExportType, h1, h2, h3]
  · intro sv h h1 h2; subst h
    rcases h2 with h2 | h2 <;> simp [normalizeExportType, h1, h2]
  · simp [createExportBody, buildHardcodedPayload, dictGet]

/-- Witness for C7 at the concrete unrecognized input `"  Entities "`,
which trims and lower-cases to `"entities"` and falls back to
`"entity"`. -/
theorem C7_export_type_normalisation_witness :
    (some "  Entities " = some "  Entities " ∧
      ¬ pyStrip "  Entities " = "" ∧
      ¬ pyLower (pyStrip "  Entities ") = "entity" ∧
      ¬ pyLower (pyStrip "  Entities ") = "record") ∧
    normalizeExportType (some "  Entities ") = "entity" := by
  refine ⟨⟨rfl, by decide, by decide, by decide⟩, ?_⟩
  exact (C7_export_type_normalisation (some "  Entities ")).2.2.2.1 "  Entities " rfl
    (by decide) (by decide) (by decide)

/-- C10: the adapter includes `compression_type` in the query parameters
iff the argument is a truthy (non-`None`, non-empty) string; `"none"` is
not special-cased and is forwarded verbatim; the parameter is omitted
exactly for `None` and the empty string. -/
theorem C10_compression_param_truthiness (crn : String) (comp : Option String) :
    ((∃ v, ("compression_type", v) ∈ mkCreateParams crn comp) ↔
      (∃ sv, comp = some sv ∧ ¬ sv = "")) ∧
    (∀ sv, comp = some sv → ¬ sv = "" →
      mkCreateParams crn comp = [("crn", .s crn), ("compression_type", .s sv)]) ∧
    mkCreateParams crn (some "none") = [("crn", .s crn), ("compression_type", .s "none")] ∧
    mkCreateParams crn Option.none = [("crn", .s crn)] ∧
    mkCreateParams crn (some "") = [("crn", .s crn)] := by
  refine ⟨?_, ?_, ?_, rfl, rfl⟩
  · constructor
    · rintro ⟨v, hv⟩
      cases comp with
      | none =>
        simp [mkCreateParams] at hv
      | some sv =>
        by_cases h : sv = ""
        · simp [mkCreateParams, h] at hv
        · exact ⟨sv, rfl, h⟩
    · rintro ⟨sv, rfl, h⟩
      refine ⟨.s sv, ?_⟩
      have hne : (sv == "") = false := by simp [h]
      simp [mkCreateParams, hne, dictSet, dictContains]
  · intro sv h hne'
    subst h
    have hne : (sv == "") = false := by simp [hne']
    simp [mkCreateParams, hne, dictSet, dictContains]
  · rfl

/-- Witness for C10 at compression `"none"`: the parameter is present and
carries the literal string. -/
theorem C10_compression_param_truthiness_witness :
    (some "none" = some ("none" : String) ∧ ¬ ("none" : String) = "") ∧
    mkCreateParams "crn:v1:test" (some "none") =
      [("crn", .s "crn:v1:test"), ("compression_type", .s "none")] :=
  ⟨⟨rfl, by decide⟩,
    (C10_compression_param_truthiness "crn:v1:test" (some "none")).2.1 "none" rfl (by decide)⟩

/-- C2: for every status string in a successfully polled job record,
`get_data_export` yields exactly one of three verdicts: `succeeded`
returns the full job descriptor; `failed` / `canceled` return an
`ExportFailed` error with status code 400 whose message references the
job id and the observed status; every other status (including a missing
one, read as `unknown`) returns an `ExportNotReady` error with status
code 202.  Classification is a function of the record, hence
deterministic. -/
theorem C2_status_classification (export_id : String) (r : JobRecord) :
    (statusOf r = "succeeded" → classifyGetDataExport export_id r = .success r) ∧
    (statusOf r = "failed" ∨ statusOf r = "canceled" →
      classifyGetDataExport export_id r = .error
        { error := "ExportFailed", status_code := 400,
          message := "Export job " ++ export_id ++ " " ++ statusOf r ++ ".",
          details := [ ("export_id", .s export_id), ("status", .s (statusOf r)),
                       ("job_id", .s r.job_id) ] }) ∧
    (¬ statusOf r = "succeeded" → ¬ statusOf r = "failed" → ¬ statusOf r = "canceled" →
      classifyGetDataExport export_id r = .error
        { error := "ExportNotReady", status_code := 202,
          message := "Export job " ++ export_id ++ " is not ready. Status: "
            ++ statusOf r ++ ". Please wait and retry.",
          details := [ ("export_id", .s export_id), ("status", .s (statusOf r)),
                       ("job_id", .s r.job_id) ] }) := by
  refine ⟨?_, ?_, ?_⟩
  · intro h
    simp [classifyGetDataExport, h]
  · rintro (h | h) <;> simp [classifyGetDataExport, h]
  · intro h1 h2 h3
    simp [classifyGetDataExport, h1, h2, h3]

/-- Witness for C2 at three concrete records: status `succeeded`,
status `failed`, and a record with no status at all. -/
theorem C2_status_classification_witness :
    (statusOf (sampleJob (some "succeeded")) = "succeeded" ∧
      classifyGetDataExport "exp-1" (sampleJob (some "succeeded")) =
        .success (sampleJob (some "succeeded"))) ∧
    (statusOf (sampleJob (some "failed")) = "failed" ∧
      classifyGetDataExport "exp-1" (sampleJob (some "failed")) = .error
        { error := "ExportFailed", status_code := 400,
          message := "Export job " ++ "exp-1" ++ " " ++ statusOf (sampleJob (some "failed")) ++ ".",
          details := [ ("export_id", .s "exp-1"),
                       ("status", .s (statusOf (sampleJob (some "failed")))),
                       ("job_id", .s (sampleJob (some "failed")).job_id) ] }) ∧
    (statusOf (sampleJob Option.none) = "unknown" ∧
      classifyGetDataExport "exp-1" (sampleJob Option.none) = .error
        { error := "ExportNotReady", status_code := 202,
          message := "Export job " ++ "exp-1" ++ " is not ready. Status: "
            ++ statusOf (sampleJob Option.none) ++ ". Please wait and retry.",
          details := [ ("export_id", .s "exp-1"),
                       ("status", .s (statusOf (sampleJob Option.none))),
                       ("job_id", .s (sampleJob Option.none).job_id) ] }) :=
  ⟨⟨rfl, (C2_status_classification "exp-1" (sampleJob (some "succeeded"))).1 rfl⟩,
   ⟨rfl, (C2_status_classification "exp-1" (sampleJob (some "failed"))).2.1 (Or.inl rfl)⟩,
   ⟨rfl, (C2_status_classification "exp-1" (sampleJob Option.none)).2.2
      (by decide) (by decide) (by decide)⟩⟩

/-- C3: when the remote create-export call answers with a non-2xx
response, the raised exception carries the body text captured before the
raise, and the error result the service returns carries that exact body
string verbatim in its details under `response_body` (and under
`mdm_response` whenever the body is non-empty), together with the HTTP
status code. -/
theorem C3_error_body_preserved (url : String) (r : HttpResponse) (h : r.ok = false) :
    ∃ res : ErrorResult, createExportErrorPath url r = .error res ∧
      res.error = "APIError" ∧
      res.status_code = r.status_code ∧
      dictGet res.details "response_body" = some (.s r.text) ∧
      dictGet res.details "status_code" = some (.n r.status_code) ∧
      (¬ r.text = "" → dictGet res.details "mdm_response" = some (.s r.text)) := by
  unfold createExportErrorPath adapterCreateDataExport
  rw [h]
  simp only [Bool.false_eq_true, if_false]
  refine ⟨_, rfl, rfl, ?_, ?_, ?_, ?_⟩ <;>
    by_cases ht : r.text = "" <;>
      simp [serviceCreateOnRequestError, dictSet, dictContains, dictGet,
        List.find?, ht]

/-- Witness for C3 at a concrete simulated 500 response with body
`"boom"`. -/
theorem C3_error_body_preserved_witness :
    HttpResponse.ok resp500boom = false ∧
    ∃ res : ErrorResult,
      createExportErrorPath "https://mdm/data_exports" resp500boom = .error res ∧
      res.error = "APIError" ∧
      res.status_code = 500 ∧
      dictGet res.details "response_body" = some (.s "boom") ∧
      dictGet res.details "status_code" = some (.n 500) ∧
      (¬ resp500boom.text = "" → dictGet res.details "mdm_response" = some (.s resp500boom.text)) :=
  ⟨rfl, C3_error_body_preserved "https://mdm/data_exports" resp500boom rfl⟩

/-- C8: exactly one output mode applies to a successful download.  With a
destination path the result has `file_path` (plus `export_id`,
`file_name`, `content_type`, `file_size`) and no content field of either
kind; without one it has `file_content_base64` and no `file_path`; in
neither case does the raw `file_content` key survive to the returned
dictionary. -/
theorem C8_output_mode_exclusivity (eid : String) (payload : List Nat)
    (dn : Option String) (ct : String) (path : String) :
    (dictContains (downloadExportResult eid payload dn ct (some path) true) "file_path" = true ∧
     dictContains (downloadExportResult eid payload dn ct (some path) true) "export_id" = true ∧
     dictContains (downloadExportResult eid payload dn ct (some path) true) "file_name" = true ∧
     dictContains (downloadExportResult eid payload dn ct (some path) true) "content_type" = true ∧
     dictContains (downloadExportResult eid payload dn ct (some path) true) "file_size" = true ∧
     dictContains (downloadExportResult eid payload dn ct (some path) true) "file_content" = false ∧
     dictContains (downloadExportResult eid payload dn ct (some path) true) "file_content_base64" = false) ∧
    (dictContains (downloadExportResult eid payload dn ct Option.none true) "file_content_base64" = true ∧
     dictContains (downloadExportResult eid payload dn ct Option.none true) "file_path" = false ∧
     dictContains (downloadExportResult eid payload dn ct Option.none true) "file_content" = false) := by
  refine ⟨⟨rfl, rfl, rfl, rfl, rfl, rfl, rfl⟩, rfl, rfl, rfl⟩

/-- C9: a memory-mode download of an n-byte payload reports
`file_size = n` and a `file_content_base64` string that decodes back to
exactly the original payload (so its decoded length is n as well). -/
theorem C9_memory_mode_base64 (eid : String) (payload : List Nat)
    (dn : Option String) (ct : String) (h : ∀ x ∈ payload, x < 256) :
    dictGet (downloadExportResult eid payload dn ct Option.none true) "file_size" =
      some (.n payload.length) ∧
    dictGet (downloadExportResult eid payload dn ct Option.none true) "file_content_base64" =
      some (.s (String.mk (b64Encode payload))) ∧
    b64Decode (String.mk (b64Encode payload)).data = payload ∧
    (b64Decode (String.mk (b64Encode payload)).data).length = payload.length := by
  have hrt : b64Decode (b64Encode payload) = payload := b64_decode_encode payload h
  exact ⟨rfl, rfl, hrt, by rw [show (String.mk (b64Encode payload)).data = b64Encode payload
    from rfl, hrt]⟩

/-- Witness for C9 at the concrete payload `[72, 105, 33]`. -/
theorem C9_memory_mode_base64_witness :
    (∀ x ∈ ([72, 105, 33] : List Nat), x < 256) ∧
    (dictGet (downloadExportResult "exp-9" [72, 105, 33] Option.none "text/csv" Option.none true)
        "file_size" = some (.n ([72, 105, 33] : List Nat).length) ∧
      dictGet (downloadExportResult "exp-9" [72, 105, 33] Option.none "text/csv" Option.none true)
        "file_content_base64" = some (.s (String.mk (b64Encode [72, 105, 33]))) ∧
      b64Decode (String.mk (b64Encode [72, 105, 33])).data = [72, 105, 33] ∧
      (b64Decode (String.mk (b64Encode [72, 105, 33])).data).length =
        ([72, 105, 33] : List Nat).length) :=
  ⟨by decide, C9_memory_mode_base64 "exp-9" [72, 105, 33] Option.none "text/csv" (by decide)⟩

/-- C1 refuted by the code: the tool `create_data_export` passes the
keyword `entity_type` to `DataExportService.create_export`, which has no
such parameter, so for every request (and whatever the service would
return) the call raises a `TypeError` that propagates past the tool
boundary instead of a structured `ExportJobResponse` /
`DataExportErrorResponse`. -/
theorem C1_create_tool_raises :
    (createToolCallKeywords.all (fun k => createExportParamNames.contains k)) = false ∧
    ∀ (req : CreateDataExportRequest) (serviceResult : PyDict),
      create_data_export req serviceResult = PyCallOutcome.raisedTypeError := by
  exact ⟨rfl, fun req serviceResult => rfl⟩

end MdmMcp
